import Mathlib

/-! Verification of the vital-signs generator in `send_data.py`.

The generator keeps a mapping from seven signal names to rational-valued
scalars, advances each one once per tick with a discretized
Ornstein-Uhlenbeck step, clamps after each update, couples diastolic to
systolic, and renders a reading with Python-style rounding
(round half to even).

Modelling decisions:
- Machine floats are modelled by `ℚ`; every constant in the source is an
  exact decimal, written here as the same decimal literal (exact on `ℚ`).
- The square root `dt ** 0.5` has no exact value on `ℚ`, so the step
  takes a function `sqrtFn : ℚ → ℚ` standing for `fun dt => dt ** 0.5`;
  at `dt = 1` the true square root is `1`, which `sqrtFn` can realize
  exactly, and in the claims about arbitrary noise the value of
  `sqrtFn dt` is absorbed by the universally quantified noise draw.
- The global random source `random.gauss` is modelled by an explicit
  stream `noise : ℕ → ℚ` together with a counter `draws` of how many
  samples have been consumed; each step reads `noise draws` and
  increments the counter.
- The publish call (`db.reference(...).set(data)`) is external I/O; its
  success or failure is modelled by a boolean `publishOk` and the
  `try/except` by returning that boolean instead of raising.
-/

/-- The seven keys of the `_state` dictionary in `send_data.py`. -/
inductive SignalName where
  | systolic
  | diastolic
  | heartRate
  | respiratoryRate
  | temperature
  | spo2
  | ecg
deriving DecidableEq, Repr

/-- The `_state` dictionary: a total map from the seven fixed keys to scalars. -/
abbrev SignalState : Type := SignalName → ℚ

/-- Initial value of `_state`: resting-healthy defaults. -/
def initState : SignalState := fun n =>
  match n with
  | .systolic => 118.0
  | .diastolic => 78.0
  | .heartRate => 74.0
  | .respiratoryRate => 15.0
  | .temperature => 36.8
  | .spo2 => 98.0
  | .ecg => 74.0

/-- The generator's mutable module-level state: the signal dictionary
`_state`, the monotonic timestamp `_last_update_t`, and the number of
standard-normal samples drawn so far from the global random source. -/
structure Gen where
  state : SignalState
  last_update_t : ℚ
  draws : ℕ

/-- Model of `_clamp`: `_clamp(v, lo, hi) = max(lo, min(hi, v))`. -/
def _clamp (v lo hi : ℚ) : ℚ := max lo (min hi v)

/-- Model of `_ou_step`: one Ornstein-Uhlenbeck step on the named signal.
Reads `x = _state[name]`, draws one standard-normal sample,
sets `x += theta*(mu-x)*dt + sigma*(dt**0.5)*noise`, clamps into
`[lo, hi]`, writes the clamped value back, and returns it. -/
def _ou_step (g : Gen) (name : SignalName) (lo hi mu theta sigma dt : ℚ)
    (sqrtFn : ℚ → ℚ) (noise : ℕ → ℚ) : ℚ × Gen :=
  let x := g.state name
  let n := noise g.draws
  let x1 := x + theta * (mu - x) * dt + sigma * sqrtFn dt * n
  let x2 := _clamp x1 lo hi
  (x2, { state := Function.update g.state name x2
         last_update_t := g.last_update_t
         draws := g.draws + 1 })

/-- The elapsed-time computation at the top of `send_fake_data`:
`dt = max(0.1, now - _last_update_t)`. -/
def tick_dt (now : ℚ) (g : Gen) : ℚ := max 0.1 (now - g.last_update_t)

/-- The rendered reading (`data` dictionary in `send_fake_data`). -/
structure Reading where
  systolic : ℤ
  diastolic : ℤ
  heartRate : ℤ
  respiratoryRate : ℤ
  temperature : ℚ
  spo2 : ℤ
  ecg : ℤ
  lastUpdated : ℤ
deriving DecidableEq, Repr

/-- Model of Python's `round` on a real-valued argument: round half to even. -/
def pyRound (x : ℚ) : ℤ :=
  let f : ℤ := ⌊x⌋
  if x - f < 1/2 then f
  else if 1/2 < x - f then f + 1
  else if f % 2 = 0 then f else f + 1

/-- Model of Python's `round(x, 1)`: round to one decimal place, half to even. -/
def pyRound1 (x : ℚ) : ℚ := (pyRound (10 * x) : ℚ) / 10

/-- Model of `send_fake_data`, one tick: advance each signal by an OU step in
source order (heartRate, ecg, respiratoryRate, systolic, diastolic,
temperature, spo2), apply the diastolic coupling correction, record
`_last_update_t = now`, and render the reading.  `timestamp` stands for
`int(time.time())`, `publishOk` for whether `ref.set(data)` succeeds;
the returned boolean reports which branch of the `try/except` ran. -/
def send_fake_data (noise : ℕ → ℚ) (sqrtFn : ℚ → ℚ) (now : ℚ) (timestamp : ℤ)
    (publishOk : Bool) (g : Gen) : Reading × Bool × Gen :=
  let dt := tick_dt now g
  let hr := _ou_step g .heartRate 60 100 75.0 0.6 1.5 dt sqrtFn noise
  let heart_rate := hr.1
  let ec := _ou_step hr.2 .ecg 55 110 heart_rate 1.8 3.0 dt sqrtFn noise
  let ecg_val := ec.1
  let rr_mu := _clamp (14.0 + (heart_rate - 75.0) * 0.05) 12.0 18.0
  let rr := _ou_step ec.2 .respiratoryRate 12 20 rr_mu 0.35 0.25 dt sqrtFn noise
  let respiratory_rate := rr.1
  let sy := _ou_step rr.2 .systolic 105 130 118.0 0.18 0.7 dt sqrtFn noise
  let systolic := sy.1
  let di := _ou_step sy.2 .diastolic 65 85 78.0 0.18 0.5 dt sqrtFn noise
  let dia :=
    if di.1 > systolic - 25 then
      let d := _clamp (systolic - 25) 60 90
      (d, { state := Function.update di.2.state .diastolic d
            last_update_t := di.2.last_update_t
            draws := di.2.draws })
    else di
  let diastolic := dia.1
  let te := _ou_step dia.2 .temperature 36.5 37.2 36.8 0.06 0.03 dt sqrtFn noise
  let temperature := te.1
  let sp := _ou_step te.2 .spo2 96 100 98.5 0.25 0.12 dt sqrtFn noise
  let spo2 := sp.1
  let gOut : Gen := { state := sp.2.state
                      last_update_t := now
                      draws := sp.2.draws }
  let data : Reading :=
    { systolic := pyRound systolic
      diastolic := pyRound diastolic
      heartRate := pyRound heart_rate
      respiratoryRate := pyRound respiratory_rate
      temperature := pyRound1 temperature
      spo2 := pyRound spo2
      ecg := pyRound ecg_val
      lastUpdated := timestamp }
  (data, publishOk, gOut)

/-! Basic lemmas about `_clamp` and `_ou_step` -/

theorem le_clamp (v lo hi : ℚ) : lo ≤ _clamp v lo hi := le_max_left _ _

theorem clamp_le (v lo hi : ℚ) (h : lo ≤ hi) : _clamp v lo hi ≤ hi :=
  max_le h (min_le_left _ _)

theorem clamp_eq_of_mem (v lo hi : ℚ) (h1 : lo ≤ v) (h2 : v ≤ hi) :
    _clamp v lo hi = v := by
  unfold _clamp
  rw [min_eq_right h2, max_eq_right h1]

theorem ou_fst (g : Gen) (name : SignalName) (lo hi mu theta sigma dt : ℚ)
    (sqrtFn : ℚ → ℚ) (noise : ℕ → ℚ) :
    (_ou_step g name lo hi mu theta sigma dt sqrtFn noise).1 =
      _clamp (g.state name + theta * (mu - g.state name) * dt
        + sigma * sqrtFn dt * noise g.draws) lo hi := rfl

theorem ou_state_apply (g : Gen) (name : SignalName) (lo hi mu theta sigma dt : ℚ)
    (sqrtFn : ℚ → ℚ) (noise : ℕ → ℚ) (m : SignalName) :
    (_ou_step g name lo hi mu theta sigma dt sqrtFn noise).2.state m =
      if m = name then (_ou_step g name lo hi mu theta sigma dt sqrtFn noise).1
      else g.state m := by
  unfold _ou_step
  exact Function.update_apply ..

theorem ou_draws (g : Gen) (name : SignalName) (lo hi mu theta sigma dt : ℚ)
    (sqrtFn : ℚ → ℚ) (noise : ℕ → ℚ) :
    (_ou_step g name lo hi mu theta sigma dt sqrtFn noise).2.draws = g.draws + 1 := rfl

theorem ou_last (g : Gen) (name : SignalName) (lo hi mu theta sigma dt : ℚ)
    (sqrtFn : ℚ → ℚ) (noise : ℕ → ℚ) :
    (_ou_step g name lo hi mu theta sigma dt sqrtFn noise).2.last_update_t =
      g.last_update_t := rfl

theorem ou_mem (g : Gen) (name : SignalName) (lo hi mu theta sigma dt : ℚ)
    (sqrtFn : ℚ → ℚ) (noise : ℕ → ℚ) (h : lo ≤ hi) :
    lo ≤ (_ou_step g name lo hi mu theta sigma dt sqrtFn noise).1 ∧
      (_ou_step g name lo hi mu theta sigma dt sqrtFn noise).1 ≤ hi :=
  ⟨le_clamp _ _ _, clamp_le _ _ _ h⟩

/-! The tick as a pipeline

Abbreviations for the individual stages of `send_fake_data`, used to state
the characterization lemmas below.  Each is definitionally the
corresponding stage of `send_fake_data`. -/

/-- The heartRate stage of the tick. -/
def hrStep (noise : ℕ → ℚ) (sqrtFn : ℚ → ℚ) (dt : ℚ) (g : Gen) : ℚ × Gen :=
  _ou_step g .heartRate 60 100 75.0 0.6 1.5 dt sqrtFn noise

/-- The ecg stage of the tick: its mean is the heartRate stage's output. -/
def ecgStep (noise : ℕ → ℚ) (sqrtFn : ℚ → ℚ) (dt : ℚ) (hr : ℚ × Gen) : ℚ × Gen :=
  _ou_step hr.2 .ecg 55 110 hr.1 1.8 3.0 dt sqrtFn noise

/-- The respiratoryRate stage of the tick: its mean is computed from the
heartRate stage's output. -/
def rrStep (noise : ℕ → ℚ) (sqrtFn : ℚ → ℚ) (dt hrv : ℚ) (g : Gen) : ℚ × Gen :=
  _ou_step g .respiratoryRate 12 20 (_clamp (14.0 + (hrv - 75.0) * 0.05) 12.0 18.0)
    0.35 0.25 dt sqrtFn noise

/-- The systolic stage of the tick. -/
def syStep (noise : ℕ → ℚ) (sqrtFn : ℚ → ℚ) (dt : ℚ) (g : Gen) : ℚ × Gen :=
  _ou_step g .systolic 105 130 118.0 0.18 0.7 dt sqrtFn noise

/-- The diastolic OU stage of the tick. -/
def diStep (noise : ℕ → ℚ) (sqrtFn : ℚ → ℚ) (dt : ℚ) (g : Gen) : ℚ × Gen :=
  _ou_step g .diastolic 65 85 78.0 0.18 0.5 dt sqrtFn noise

/-- The diastolic coupling correction: if the OU output exceeds
`systolic - 25`, replace it by `_clamp (systolic - 25) 60 90` and persist. -/
def diaFix (syv : ℚ) (di : ℚ × Gen) : ℚ × Gen :=
  if di.1 > syv - 25 then
    let d := _clamp (syv - 25) 60 90
    (d, { state := Function.update di.2.state .diastolic d
          last_update_t := di.2.last_update_t
          draws := di.2.draws })
  else di

/-- The temperature stage of the tick. -/
def teStep (noise : ℕ → ℚ) (sqrtFn : ℚ → ℚ) (dt : ℚ) (g : Gen) : ℚ × Gen :=
  _ou_step g .temperature 36.5 37.2 36.8 0.06 0.03 dt sqrtFn noise

/-- The spo2 stage of the tick. -/
def spStep (noise : ℕ → ℚ) (sqrtFn : ℚ → ℚ) (dt : ℚ) (g : Gen) : ℚ × Gen :=
  _ou_step g .spo2 96 100 98.5 0.25 0.12 dt sqrtFn noise

/-- Unfolding of `send_fake_data`: it is exactly the composition of the stages above,
all using the single elapsed time `tick_dt now g`. -/
theorem send_fake_data_pipeline (noise : ℕ → ℚ) (sqrtFn : ℚ → ℚ) (now : ℚ)
    (ts : ℤ) (pub : Bool) (g : Gen) :
    send_fake_data noise sqrtFn now ts pub g =
      (let dt := tick_dt now g
       let hr := hrStep noise sqrtFn dt g
       let ec := ecgStep noise sqrtFn dt hr
       let rr := rrStep noise sqrtFn dt hr.1 ec.2
       let sy := syStep noise sqrtFn dt rr.2
       let dia := diaFix sy.1 (diStep noise sqrtFn dt sy.2)
       let te := teStep noise sqrtFn dt dia.2
       let sp := spStep noise sqrtFn dt te.2
       ({ systolic := pyRound sy.1
          diastolic := pyRound dia.1
          heartRate := pyRound hr.1
          respiratoryRate := pyRound rr.1
          temperature := pyRound1 te.1
          spo2 := pyRound sp.1
          ecg := pyRound ec.1
          lastUpdated := ts },
        pub,
        { state := sp.2.state, last_update_t := now, draws := sp.2.draws })) := rfl

/-! Chained stage values of one tick -/

/-- Value and state after the heartRate stage of a tick. -/
def tickHR (noise : ℕ → ℚ) (sqrtFn : ℚ → ℚ) (now : ℚ) (g : Gen) : ℚ × Gen :=
  hrStep noise sqrtFn (tick_dt now g) g

/-- Value and state after the ecg stage of a tick. -/
def tickEC (noise : ℕ → ℚ) (sqrtFn : ℚ → ℚ) (now : ℚ) (g : Gen) : ℚ × Gen :=
  ecgStep noise sqrtFn (tick_dt now g) (tickHR noise sqrtFn now g)

/-- Value and state after the respiratoryRate stage of a tick. -/
def tickRR (noise : ℕ → ℚ) (sqrtFn : ℚ → ℚ) (now : ℚ) (g : Gen) : ℚ × Gen :=
  rrStep noise sqrtFn (tick_dt now g) (tickHR noise sqrtFn now g).1
    (tickEC noise sqrtFn now g).2

/-- Value and state after the systolic stage of a tick. -/
def tickSY (noise : ℕ → ℚ) (sqrtFn : ℚ → ℚ) (now : ℚ) (g : Gen) : ℚ × Gen :=
  syStep noise sqrtFn (tick_dt now g) (tickRR noise sqrtFn now g).2

/-- Value and state after the diastolic OU stage of a tick. -/
def tickDI (noise : ℕ → ℚ) (sqrtFn : ℚ → ℚ) (now : ℚ) (g : Gen) : ℚ × Gen :=
  diStep noise sqrtFn (tick_dt now g) (tickSY noise sqrtFn now g).2

/-- Value and state after the diastolic coupling correction of a tick. -/
def tickDIA (noise : ℕ → ℚ) (sqrtFn : ℚ → ℚ) (now : ℚ) (g : Gen) : ℚ × Gen :=
  diaFix (tickSY noise sqrtFn now g).1 (tickDI noise sqrtFn now g)

/-- Value and state after the temperature stage of a tick. -/
def tickTE (noise : ℕ → ℚ) (sqrtFn : ℚ → ℚ) (now : ℚ) (g : Gen) : ℚ × Gen :=
  teStep noise sqrtFn (tick_dt now g) (tickDIA noise sqrtFn now g).2

/-- Value and state after the spo2 stage of a tick. -/
def tickSP (noise : ℕ → ℚ) (sqrtFn : ℚ → ℚ) (now : ℚ) (g : Gen) : ℚ × Gen :=
  spStep noise sqrtFn (tick_dt now g) (tickTE noise sqrtFn now g).2

/-! Characterization of the post-tick state and reading -/

theorem tick_state_heartRate (noise : ℕ → ℚ) (sqrtFn : ℚ → ℚ) (now : ℚ) (ts : ℤ)
    (pub : Bool) (g : Gen) :
    (send_fake_data noise sqrtFn now ts pub g).2.2.state .heartRate =
      (tickHR noise sqrtFn now g).1 := by
  simp only [send_fake_data_pipeline, tickHR, tickEC, tickRR, tickSY, tickDI, tickDIA,
    tickTE, tickSP, hrStep, ecgStep, rrStep, syStep, diStep, diaFix, teStep, spStep]
  split_ifs <;> simp [ou_state_apply]

theorem tick_state_ecg (noise : ℕ → ℚ) (sqrtFn : ℚ → ℚ) (now : ℚ) (ts : ℤ)
    (pub : Bool) (g : Gen) :
    (send_fake_data noise sqrtFn now ts pub g).2.2.state .ecg =
      (tickEC noise sqrtFn now g).1 := by
  simp only [send_fake_data_pipeline, tickHR, tickEC, tickRR, tickSY, tickDI, tickDIA,
    tickTE, tickSP, hrStep, ecgStep, rrStep, syStep, diStep, diaFix, teStep, spStep]
  split_ifs <;> simp [ou_state_apply]

theorem tick_state_respiratoryRate (noise : ℕ → ℚ) (sqrtFn : ℚ → ℚ) (now : ℚ) (ts : ℤ)
    (pub : Bool) (g : Gen) :
    (send_fake_data noise sqrtFn now ts pub g).2.2.state .respiratoryRate =
      (tickRR noise sqrtFn now g).1 := by
  simp only [send_fake_data_pipeline, tickHR, tickEC, tickRR, tickSY, tickDI, tickDIA,
    tickTE, tickSP, hrStep, ecgStep, rrStep, syStep, diStep, diaFix, teStep, spStep]
  split_ifs <;> simp [ou_state_apply]

theorem tick_state_systolic (noise : ℕ → ℚ) (sqrtFn : ℚ → ℚ) (now : ℚ) (ts : ℤ)
    (pub : Bool) (g : Gen) :
    (send_fake_data noise sqrtFn now ts pub g).2.2.state .systolic =
      (tickSY noise sqrtFn now g).1 := by
  simp only [send_fake_data_pipeline, tickHR, tickEC, tickRR, tickSY, tickDI, tickDIA,
    tickTE, tickSP, hrStep, ecgStep, rrStep, syStep, diStep, diaFix, teStep, spStep]
  split_ifs <;> simp [ou_state_apply]

theorem tick_state_diastolic (noise : ℕ → ℚ) (sqrtFn : ℚ → ℚ) (now : ℚ) (ts : ℤ)
    (pub : Bool) (g : Gen) :
    (send_fake_data noise sqrtFn now ts pub g).2.2.state .diastolic =
      (tickDIA noise sqrtFn now g).1 := by
  simp only [send_fake_data_pipeline, tickHR, tickEC, tickRR, tickSY, tickDI, tickDIA,
    tickTE, tickSP, hrStep, ecgStep, rrStep, syStep, diStep, diaFix, teStep, spStep]
  split_ifs <;> simp [ou_state_apply]

theorem tick_state_temperature (noise : ℕ → ℚ) (sqrtFn : ℚ → ℚ) (now : ℚ) (ts : ℤ)
    (pub : Bool) (g : Gen) :
    (send_fake_data noise sqrtFn now ts pub g).2.2.state .temperature =
      (tickTE noise sqrtFn now g).1 := by
  simp only [send_fake_data_pipeline, tickHR, tickEC, tickRR, tickSY, tickDI, tickDIA,
    tickTE, tickSP, hrStep, ecgStep, rrStep, syStep, diStep, diaFix, teStep, spStep]
  split_ifs <;> simp [ou_state_apply]

theorem tick_state_spo2 (noise : ℕ → ℚ) (sqrtFn : ℚ → ℚ) (now : ℚ) (ts : ℤ)
    (pub : Bool) (g : Gen) :
    (send_fake_data noise sqrtFn now ts pub g).2.2.state .spo2 =
      (tickSP noise sqrtFn now g).1 := by
  simp only [send_fake_data_pipeline, tickHR, tickEC, tickRR, tickSY, tickDI, tickDIA,
    tickTE, tickSP, hrStep, ecgStep, rrStep, syStep, diStep, diaFix, teStep, spStep]
  split_ifs <;> simp [ou_state_apply]

theorem tick_last_update (noise : ℕ → ℚ) (sqrtFn : ℚ → ℚ) (now : ℚ) (ts : ℤ)
    (pub : Bool) (g : Gen) :
    (send_fake_data noise sqrtFn now ts pub g).2.2.last_update_t = now := rfl

theorem tick_draws (noise : ℕ → ℚ) (sqrtFn : ℚ → ℚ) (now : ℚ) (ts : ℤ)
    (pub : Bool) (g : Gen) :
    (send_fake_data noise sqrtFn now ts pub g).2.2.draws = g.draws + 7 := by
  simp only [send_fake_data_pipeline, tickHR, tickEC, tickRR, tickSY, tickDI, tickDIA,
    tickTE, tickSP, hrStep, ecgStep, rrStep, syStep, diStep, diaFix, teStep, spStep]
  split_ifs <;> simp [ou_draws]

theorem tick_reading (noise : ℕ → ℚ) (sqrtFn : ℚ → ℚ) (now : ℚ) (ts : ℤ)
    (pub : Bool) (g : Gen) :
    (send_fake_data noise sqrtFn now ts pub g).1 =
      { systolic := pyRound (tickSY noise sqrtFn now g).1
        diastolic := pyRound (tickDIA noise sqrtFn now g).1
        heartRate := pyRound (tickHR noise sqrtFn now g).1
        respiratoryRate := pyRound (tickRR noise sqrtFn now g).1
        temperature := pyRound1 (tickTE noise sqrtFn now g).1
        spo2 := pyRound (tickSP noise sqrtFn now g).1
        ecg := pyRound (tickEC noise sqrtFn now g).1
        lastUpdated := ts } := rfl

/-! Rounding lemmas -/

theorem pyRound_nearest (x : ℚ) : |(pyRound x : ℚ) - x| ≤ 1/2 := by
  simp only [pyRound]
  have h1 : ((⌊x⌋ : ℚ)) ≤ x := Int.floor_le x
  have h2 : x < (⌊x⌋ : ℚ) + 1 := Int.lt_floor_add_one x
  split_ifs with ha hb hc <;>
    · rw [abs_le]
      constructor <;> push_cast <;> linarith

theorem pyRound1_nearest (x : ℚ) : |pyRound1 x - x| ≤ 1/20 := by
  have h := pyRound_nearest (10 * x)
  unfold pyRound1
  have e : (pyRound (10 * x) : ℚ) / 10 - x = ((pyRound (10 * x) : ℚ) - 10 * x) / 10 := by
    ring
  rw [e, abs_div]
  have e10 : |(10 : ℚ)| = 10 := by norm_num
  rw [e10]
  linarith

/-- Shifting the argument down by the integer 25 lowers the half-to-even
rounding by at least 24 (only 24, not 25, because 25 is odd and flips the
parity used to break exact-half ties). -/
theorem pyRound_sub_25 (x : ℚ) : pyRound (x - 25) ≤ pyRound x - 24 := by
  have h1 := pyRound_nearest (x - 25)
  have h2 := pyRound_nearest x
  rw [abs_le] at h1 h2
  have : ((pyRound (x - 25) : ℚ)) ≤ ((pyRound x : ℚ)) - 24 := by linarith [h1.2, h2.1]
  exact_mod_cast this

/-- When the diastolic coupling branch fires (`y > x - 25` with the
post-clamp facts `105 ≤ x` and `y ≤ 85`), the corrected value
`_clamp (x - 25) 60 90` equals `x - 25` and lies in `[65, 85]`. -/
theorem dia_fix_mem (x y : ℚ) (hx : 105 ≤ x) (hy : y ≤ 85) (hf : y > x - 25) :
    _clamp (x - 25) 60 90 = x - 25 ∧
    65 ≤ _clamp (x - 25) 60 90 ∧ _clamp (x - 25) 60 90 ≤ 85 := by
  rw [clamp_eq_of_mem _ _ _ (by linarith) (by linarith)]
  exact ⟨rfl, by linarith, by linarith⟩

/-! Concrete instances used by witnesses and counterexamples -/

/-- The zero noise stream (the spec's deterministic test mode). -/
def noiseZero : ℕ → ℚ := fun _ => 0

/-- Square-root stand-in that is exact at `dt = 1` (`1 ** 0.5 = 1`). -/
def sqrtOne : ℚ → ℚ := fun _ => 1

/-- The generator state at program start, with the clock at 0. -/
def gInit : Gen := { state := initState, last_update_t := 0, draws := 0 }

/-- Noise stream whose fourth draw (consumed by the systolic step)
is `-95/7` and whose fifth draw (consumed by the diastolic step) is `12`;
all other draws are zero. -/
def cNoise : ℕ → ℚ := fun i => if i = 3 then -(95/7) else if i = 4 then 12 else 0

/-- The documented initial state with `heartRate` at its fixed point 75
and `ecg` at a chosen value `e`. -/
def ecgTestState (e : ℚ) : SignalState := fun n =>
  match n with
  | .heartRate => 75
  | .ecg => e
  | m => initState m

/-- Starting generator state for the ECG-responsiveness scenario:
`heartRate = 75`, `ecg = 74`. -/
def gEcg : Gen := { state := ecgTestState 74, last_update_t := 0, draws := 0 }

/-- Deterministic tick: zero noise, elapsed wall time `δ` since the
last tick (so `dt = max(0.1, δ)`). -/
def tickZd (δ : ℚ) (g : Gen) : Gen :=
  (send_fake_data noiseZero sqrtOne (g.last_update_t + δ) 0 true g).2.2

/-! Claim theorems -/

/-- C1: for every tick and every sequence of noise draws, after
`send_fake_data` completes each of the seven SignalState scalars lies
within its declared clinical bound inclusive (systolic in [105,130],
diastolic in [65,85], heartRate in [60,100], respiratoryRate in [12,20],
temperature in [36.5,37.2], spo2 in [96,100], ecg in [55,110]),
including the diastolic value persisted by the coupling-correction
branch. -/
theorem claim_C1_bounds_invariant (noise : ℕ → ℚ) (sqrtFn : ℚ → ℚ) (now : ℚ)
    (ts : ℤ) (pub : Bool) (g : Gen) :
    105 ≤ (send_fake_data noise sqrtFn now ts pub g).2.2.state .systolic ∧
    (send_fake_data noise sqrtFn now ts pub g).2.2.state .systolic ≤ 130 ∧
    65 ≤ (send_fake_data noise sqrtFn now ts pub g).2.2.state .diastolic ∧
    (send_fake_data noise sqrtFn now ts pub g).2.2.state .diastolic ≤ 85 ∧
    60 ≤ (send_fake_data noise sqrtFn now ts pub g).2.2.state .heartRate ∧
    (send_fake_data noise sqrtFn now ts pub g).2.2.state .heartRate ≤ 100 ∧
    12 ≤ (send_fake_data noise sqrtFn now ts pub g).2.2.state .respiratoryRate ∧
    (send_fake_data noise sqrtFn now ts pub g).2.2.state .respiratoryRate ≤ 20 ∧
    36.5 ≤ (send_fake_data noise sqrtFn now ts pub g).2.2.state .temperature ∧
    (send_fake_data noise sqrtFn now ts pub g).2.2.state .temperature ≤ 37.2 ∧
    96 ≤ (send_fake_data noise sqrtFn now ts pub g).2.2.state .spo2 ∧
    (send_fake_data noise sqrtFn now ts pub g).2.2.state .spo2 ≤ 100 ∧
    55 ≤ (send_fake_data noise sqrtFn now ts pub g).2.2.state .ecg ∧
    (send_fake_data noise sqrtFn now ts pub g).2.2.state .ecg ≤ 110 := by
  have hdia : 65 ≤ (send_fake_data noise sqrtFn now ts pub g).2.2.state .diastolic ∧
      (send_fake_data noise sqrtFn now ts pub g).2.2.state .diastolic ≤ 85 := by
    rw [tick_state_diastolic]
    unfold tickDIA diaFix
    split_ifs with hf
    · have hx : (105 : ℚ) ≤ (tickSY noise sqrtFn now g).1 :=
        (ou_mem _ _ _ _ _ _ _ _ _ _ (by norm_num)).1
      have hy : (tickDI noise sqrtFn now g).1 ≤ 85 :=
        (ou_mem _ _ _ _ _ _ _ _ _ _ (by norm_num)).2
      exact ⟨(dia_fix_mem _ _ hx hy hf).2.1, (dia_fix_mem _ _ hx hy hf).2.2⟩
    · exact ou_mem _ _ _ _ _ _ _ _ _ _ (by norm_num)
  refine ⟨?_, ?_, hdia.1, hdia.2, ?_, ?_, ?_, ?_, ?_, ?_, ?_, ?_, ?_, ?_⟩
  · rw [tick_state_systolic]; exact (ou_mem _ _ _ _ _ _ _ _ _ _ (by norm_num)).1
  · rw [tick_state_systolic]; exact (ou_mem _ _ _ _ _ _ _ _ _ _ (by norm_num)).2
  · rw [tick_state_heartRate]; exact (ou_mem _ _ _ _ _ _ _ _ _ _ (by norm_num)).1
  · rw [tick_state_heartRate]; exact (ou_mem _ _ _ _ _ _ _ _ _ _ (by norm_num)).2
  · rw [tick_state_respiratoryRate]; exact (ou_mem _ _ _ _ _ _ _ _ _ _ (by norm_num)).1
  · rw [tick_state_respiratoryRate]; exact (ou_mem _ _ _ _ _ _ _ _ _ _ (by norm_num)).2
  · rw [tick_state_temperature]; exact (ou_mem _ _ _ _ _ _ _ _ _ _ (by norm_num)).1
  · rw [tick_state_temperature]; exact (ou_mem _ _ _ _ _ _ _ _ _ _ (by norm_num)).2
  · rw [tick_state_spo2]; exact (ou_mem _ _ _ _ _ _ _ _ _ _ (by norm_num)).1
  · rw [tick_state_spo2]; exact (ou_mem _ _ _ _ _ _ _ _ _ _ (by norm_num)).2
  · rw [tick_state_ecg]; exact (ou_mem _ _ _ _ _ _ _ _ _ _ (by norm_num)).1
  · rw [tick_state_ecg]; exact (ou_mem _ _ _ _ _ _ _ _ _ _ (by norm_num)).2

/-- C2: for every signal name, bounds, parameters, elapsed time, state
and noise stream, `_ou_step` returns exactly
`clamp(x + theta*(mu - x)*dt + sigma*sqrt(dt)*noise, lo, hi)`, writes
that same value back into SignalState under the given name, and draws
exactly one standard-normal sample per call (the draw counter advances
by one and the result depends only on the sample at the current
counter). -/
theorem claim_C2_ou_step_exact (g : Gen) (name : SignalName)
    (lo hi mu theta sigma dt : ℚ) (sqrtFn : ℚ → ℚ) (noise : ℕ → ℚ) :
    (_ou_step g name lo hi mu theta sigma dt sqrtFn noise).1 =
      _clamp (g.state name + theta * (mu - g.state name) * dt
        + sigma * sqrtFn dt * noise g.draws) lo hi ∧
    (_ou_step g name lo hi mu theta sigma dt sqrtFn noise).2.state name =
      (_ou_step g name lo hi mu theta sigma dt sqrtFn noise).1 ∧
    (_ou_step g name lo hi mu theta sigma dt sqrtFn noise).2.draws = g.draws + 1 ∧
    (∀ noise2 : ℕ → ℚ, noise2 g.draws = noise g.draws →
      _ou_step g name lo hi mu theta sigma dt sqrtFn noise2 =
        _ou_step g name lo hi mu theta sigma dt sqrtFn noise) := by
  refine ⟨rfl, ?_, rfl, ?_⟩
  · simp [ou_state_apply]
  · intro noise2 h
    unfold _ou_step
    rw [h]

/-- Witness for C2: the step formula instantiated at the initial state
on the heartRate signal. -/
theorem claim_C2_witness :
    (_ou_step gInit .heartRate 60 100 75.0 0.6 1.5 1 sqrtOne noiseZero).1 =
      _clamp (gInit.state .heartRate + 0.6 * (75.0 - gInit.state .heartRate) * 1
        + 1.5 * sqrtOne 1 * noiseZero gInit.draws) 60 100 :=
  (claim_C2_ou_step_exact gInit .heartRate 60 100 75.0 0.6 1.5 1 sqrtOne noiseZero).1

/-- C3 (amended): on every tick, after systolic and diastolic have been
advanced, if the OU diastolic exceeds systolic − 25 then diastolic is
replaced by `clamp(systolic − 25, 60, 90)` and this corrected value is
persisted into SignalState; the corrected value lies in [60, 90]; the
rendered diastolic is the rounding of the corrected value and does not
exceed the rendered systolic minus 24.  (The original claim's bound of
25 on the rendered values fails at exact half fractions because Python
rounds half to even; see the counterexample.) -/
theorem claim_C3_coupling_amended (noise : ℕ → ℚ) (sqrtFn : ℚ → ℚ) (now : ℚ)
    (ts : ℤ) (pub : Bool) (g : Gen)
    (hf : (tickDI noise sqrtFn now g).1 > (tickSY noise sqrtFn now g).1 - 25) :
    (send_fake_data noise sqrtFn now ts pub g).2.2.state .diastolic =
      _clamp ((tickSY noise sqrtFn now g).1 - 25) 60 90 ∧
    60 ≤ _clamp ((tickSY noise sqrtFn now g).1 - 25) 60 90 ∧
    _clamp ((tickSY noise sqrtFn now g).1 - 25) 60 90 ≤ 90 ∧
    (send_fake_data noise sqrtFn now ts pub g).1.diastolic =
      pyRound (_clamp ((tickSY noise sqrtFn now g).1 - 25) 60 90) ∧
    (send_fake_data noise sqrtFn now ts pub g).1.diastolic ≤
      (send_fake_data noise sqrtFn now ts pub g).1.systolic - 24 := by
  have hx : (105 : ℚ) ≤ (tickSY noise sqrtFn now g).1 :=
    (ou_mem _ _ _ _ _ _ _ _ _ _ (by norm_num)).1
  have hy : (tickDI noise sqrtFn now g).1 ≤ 85 :=
    (ou_mem _ _ _ _ _ _ _ _ _ _ (by norm_num)).2
  have hd := dia_fix_mem _ _ hx hy hf
  have hDIA : (tickDIA noise sqrtFn now g).1 =
      _clamp ((tickSY noise sqrtFn now g).1 - 25) 60 90 := by
    unfold tickDIA diaFix
    rw [if_pos hf]
  refine ⟨?_, le_clamp _ _ _, clamp_le _ _ _ (by norm_num), ?_, ?_⟩
  · rw [tick_state_diastolic, hDIA]
  · rw [tick_reading, hDIA]
  · rw [tick_reading]
    show pyRound (tickDIA noise sqrtFn now g).1 ≤ pyRound (tickSY noise sqrtFn now g).1 - 24
    rw [hDIA, hd.1]
    exact pyRound_sub_25 _

/-- Witness for C3: a concrete tick on which the correction branch fires,
with the amended conclusions instantiated. -/
theorem claim_C3_coupling_witness :
    ((tickDI cNoise sqrtOne 1 gInit).1 > (tickSY cNoise sqrtOne 1 gInit).1 - 25) ∧
    ((send_fake_data cNoise sqrtOne 1 0 true gInit).2.2.state .diastolic =
      _clamp ((tickSY cNoise sqrtOne 1 gInit).1 - 25) 60 90 ∧
    (send_fake_data cNoise sqrtOne 1 0 true gInit).1.diastolic ≤
      (send_fake_data cNoise sqrtOne 1 0 true gInit).1.systolic - 24) := by
  have hf : (tickDI cNoise sqrtOne 1 gInit).1 > (tickSY cNoise sqrtOne 1 gInit).1 - 25 := by
    simp [tickDI, tickSY, tickRR, tickEC, tickHR, diStep, syStep, rrStep, ecgStep, hrStep,
      _ou_step, _clamp, tick_dt, gInit, initState, cNoise, sqrtOne, max_def, min_def,
      Function.update_apply]
    norm_num
  have h := claim_C3_coupling_amended cNoise sqrtOne 1 0 true gInit hf
  exact ⟨hf, h.1, h.2.2.2.2⟩

/-- Counterexample for C3 as stated: with the systolic OU step landing on
exactly 108.5 and the diastolic correction therefore producing exactly
83.5, round-half-to-even renders systolic as 108 and diastolic as 84,
so the rendered diastolic exceeds the rendered systolic minus 25. -/
theorem claim_C3_coupling_counterexample :
    ((tickDI cNoise sqrtOne 1 gInit).1 > (tickSY cNoise sqrtOne 1 gInit).1 - 25) ∧
    (send_fake_data cNoise sqrtOne 1 0 true gInit).2.2.state .diastolic = 83.5 ∧
    (send_fake_data cNoise sqrtOne 1 0 true gInit).1.diastolic = 84 ∧
    (send_fake_data cNoise sqrtOne 1 0 true gInit).1.systolic = 108 ∧
    ¬((send_fake_data cNoise sqrtOne 1 0 true gInit).1.diastolic ≤
        (send_fake_data cNoise sqrtOne 1 0 true gInit).1.systolic - 25) := by
  have hf : (tickDI cNoise sqrtOne 1 gInit).1 > (tickSY cNoise sqrtOne 1 gInit).1 - 25 := by
    simp [tickDI, tickSY, tickRR, tickEC, tickHR, diStep, syStep, rrStep, ecgStep, hrStep,
      _ou_step, _clamp, tick_dt, gInit, initState, cNoise, sqrtOne, max_def, min_def,
      Function.update_apply]
    norm_num
  have hst : (send_fake_data cNoise sqrtOne 1 0 true gInit).2.2.state .diastolic = 83.5 := by
    simp [send_fake_data, _ou_step, _clamp, tick_dt, gInit, initState, cNoise, sqrtOne,
      max_def, min_def, Function.update_apply]
    norm_num
  have hdr : (send_fake_data cNoise sqrtOne 1 0 true gInit).1.diastolic = 84 := by
    simp [send_fake_data, _ou_step, _clamp, tick_dt, gInit, initState, cNoise, sqrtOne,
      max_def, min_def, Function.update_apply]
    norm_num
    unfold pyRound
    norm_num
  have hsr : (send_fake_data cNoise sqrtOne 1 0 true gInit).1.systolic = 108 := by
    simp [send_fake_data, _ou_step, _clamp, tick_dt, gInit, initState, cNoise, sqrtOne,
      max_def, min_def, Function.update_apply]
    norm_num
    unfold pyRound
    norm_num
  refine ⟨hf, hst, hdr, hsr, ?_⟩
  rw [hdr, hsr]
  norm_num

/-- C4: for every tick, the elapsed time equals
`max(0.1, now − lastTickTime)`; when the raw elapsed time is zero or
negative, the tick uses `dt = 0.1`; the elapsed time is always at least
0.1, hence positive; and `send_fake_data` passes this single elapsed
time to every one of its seven OU steps. -/
theorem claim_C4_dt_floor (noise : ℕ → ℚ) (sqrtFn : ℚ → ℚ) (now : ℚ) (ts : ℤ)
    (pub : Bool) (g : Gen) :
    tick_dt now g = max 0.1 (now - g.last_update_t) ∧
    (now - g.last_update_t ≤ 0 → tick_dt now g = 0.1) ∧
    0.1 ≤ tick_dt now g ∧ 0 < tick_dt now g ∧
    send_fake_data noise sqrtFn now ts pub g =
      (let dt := tick_dt now g
       let hr := hrStep noise sqrtFn dt g
       let ec := ecgStep noise sqrtFn dt hr
       let rr := rrStep noise sqrtFn dt hr.1 ec.2
       let sy := syStep noise sqrtFn dt rr.2
       let dia := diaFix sy.1 (diStep noise sqrtFn dt sy.2)
       let te := teStep noise sqrtFn dt dia.2
       let sp := spStep noise sqrtFn dt te.2
       ({ systolic := pyRound sy.1
          diastolic := pyRound dia.1
          heartRate := pyRound hr.1
          respiratoryRate := pyRound rr.1
          temperature := pyRound1 te.1
          spo2 := pyRound sp.1
          ecg := pyRound ec.1
          lastUpdated := ts },
        pub,
        { state := sp.2.state, last_update_t := now, draws := sp.2.draws })) := by
  refine ⟨rfl, ?_, le_max_left _ _, ?_, send_fake_data_pipeline noise sqrtFn now ts pub g⟩
  · intro h
    unfold tick_dt
    exact max_eq_left (by norm_num; linarith)
  · exact lt_of_lt_of_le (by norm_num) (le_max_left _ _)

/-- Witness for C4: a tick whose raw elapsed time is negative
(`now = 0`, last tick at 5) is computed with the floor value 0.1. -/
theorem claim_C4_dt_floor_witness :
    tick_dt 0 { state := initState, last_update_t := 5, draws := 0 } = 0.1 :=
  (claim_C4_dt_floor noiseZero sqrtOne 0 0 true
    { state := initState, last_update_t := 5, draws := 0 }).2.1 (by norm_num)

/-- Counterexample for C5 as stated: with zero noise, `heartRate` held
at its fixed point 75, `ecg` starting at 74 (strictly below), and the
nominal elapsed time `dt = 1`, the first tick produces `ecg = 75.8`,
which crosses above the heart rate, and the second tick produces
`ecg = 74.36 < 75.8`, so the sequence is not monotone toward 75. -/
theorem claim_C5_ecg_counterexample :
    (tickZd 1 gEcg).state .heartRate = 75 ∧
    (tickZd 1 gEcg).state .ecg = 75.8 ∧
    ¬((tickZd 1 gEcg).state .ecg ≤ 75) ∧
    (tickZd 1 (tickZd 1 gEcg)).state .ecg = 74.36 ∧
    (tickZd 1 (tickZd 1 gEcg)).state .ecg < (tickZd 1 gEcg).state .ecg := by
  refine ⟨?_, ?_, ?_, ?_, ?_⟩ <;>
    · simp [tickZd, send_fake_data, _ou_step, _clamp, tick_dt, gEcg, ecgTestState, initState,
        noiseZero, sqrtOne, max_def, min_def]
      try norm_num
      try simp [Function.update_apply, ecgTestState, initState]
      try norm_num
      try simp [Function.update_apply, ecgTestState, initState]
      try norm_num
      try simp [Function.update_apply, ecgTestState, initState]
      try norm_num

/-- Auxiliary step lemma for C5: one deterministic tick with
`heartRate = 75`, zero noise and elapsed time `dl` with
`0.1 ≤ dl ≤ 5/9` keeps the heart rate at 75 and moves the ecg upward
without crossing 75 or leaving its band. -/
theorem tickZd_step (dl : ℚ) (g : Gen) (hd1 : 0.1 ≤ dl) (hd2 : dl ≤ 5/9)
    (hh : g.state .heartRate = 75) (he1 : 55 ≤ g.state .ecg) (he2 : g.state .ecg ≤ 75) :
    (tickZd dl g).state .heartRate = 75 ∧
    g.state .ecg ≤ (tickZd dl g).state .ecg ∧
    55 ≤ (tickZd dl g).state .ecg ∧
    (tickZd dl g).state .ecg ≤ 75 := by
  have hdt : tick_dt (g.last_update_t + dl) g = dl := by
    unfold tick_dt
    rw [add_sub_cancel_left]
    exact max_eq_right (le_trans (by norm_num) hd1)
  have hhr : (tickHR noiseZero sqrtOne (g.last_update_t + dl) g).1 = 75 := by
    unfold tickHR hrStep
    rw [ou_fst, hdt, hh]
    have harg : ∀ k : ℕ, (75 : ℚ) + 0.6 * (75.0 - 75) * dl + 1.5 * sqrtOne dl * noiseZero k
        = 75 := by
      intro k
      norm_num [noiseZero]
    rw [harg]
    exact clamp_eq_of_mem _ _ _ (by norm_num) (by norm_num)
  have h18 : (1.8 : ℚ) * dl ≤ 1 := by
    have e : (1.8 : ℚ) = 9/5 := by norm_num
    rw [e]; linarith
  have hraw1 : g.state .ecg ≤ g.state .ecg + 1.8 * (75 - g.state .ecg) * dl := by nlinarith
  have hraw2 : g.state .ecg + 1.8 * (75 - g.state .ecg) * dl ≤ 75 := by nlinarith
  have hecg : (tickEC noiseZero sqrtOne (g.last_update_t + dl) g).1 =
      g.state .ecg + 1.8 * (75 - g.state .ecg) * dl := by
    unfold tickEC ecgStep
    rw [ou_fst, hhr, hdt]
    have hst : (tickHR noiseZero sqrtOne (g.last_update_t + dl) g).2.state .ecg =
        g.state .ecg := by
      unfold tickHR hrStep
      rw [ou_state_apply]
      simp
    rw [hst]
    have harg : ∀ k : ℕ, g.state .ecg + 1.8 * (75 - g.state .ecg) * dl
        + 3.0 * sqrtOne dl * noiseZero k = g.state .ecg + 1.8 * (75 - g.state .ecg) * dl := by
      intro k
      norm_num [noiseZero]
    rw [harg]
    exact clamp_eq_of_mem _ _ _ (by linarith) (by linarith)
  refine ⟨?_, ?_, ?_, ?_⟩
  · show (send_fake_data noiseZero sqrtOne (g.last_update_t + dl) 0 true g).2.2.state
        .heartRate = 75
    rw [tick_state_heartRate, hhr]
  · show g.state .ecg ≤
        (send_fake_data noiseZero sqrtOne (g.last_update_t + dl) 0 true g).2.2.state .ecg
    rw [tick_state_ecg, hecg]
    exact hraw1
  · show (55 : ℚ) ≤
        (send_fake_data noiseZero sqrtOne (g.last_update_t + dl) 0 true g).2.2.state .ecg
    rw [tick_state_ecg, hecg]
    linarith
  · show (send_fake_data noiseZero sqrtOne (g.last_update_t + dl) 0 true g).2.2.state
        .ecg ≤ 75
    rw [tick_state_ecg, hecg]
    exact hraw2

/-- C5 (amended): with zero noise, `heartRate` held at its fixed point
75, and a fixed elapsed time `dl` per tick satisfying `0.1 ≤ dl ≤ 5/9`
(equivalently `theta*dl = 1.8*dl ≤ 1`), the successive `ecg` values of
repeated ticks starting at or below the heart rate form a nondecreasing
sequence that never crosses above the heart rate.  (The original claim,
for arbitrary fixed `dt`, fails at the nominal `dt = 1`: the update
overshoots and oscillates; see the counterexample.) -/
theorem claim_C5_ecg_monotone_amended (dl : ℚ) (g : Gen) (hd1 : 0.1 ≤ dl)
    (hd2 : dl ≤ 5/9) (hh : g.state .heartRate = 75) (he1 : 55 ≤ g.state .ecg)
    (he2 : g.state .ecg ≤ 75) (n : ℕ) :
    (Nat.iterate (tickZd dl) n g).state .ecg ≤
      (Nat.iterate (tickZd dl) (n+1) g).state .ecg ∧
    (Nat.iterate (tickZd dl) (n+1) g).state .ecg ≤ 75 ∧
    (Nat.iterate (tickZd dl) n g).state .ecg ≤ 75 := by
  have aux : ∀ m : ℕ, (Nat.iterate (tickZd dl) m g).state .heartRate = 75 ∧
      55 ≤ (Nat.iterate (tickZd dl) m g).state .ecg ∧
      (Nat.iterate (tickZd dl) m g).state .ecg ≤ 75 := by
    intro m
    induction m with
    | zero => exact ⟨hh, he1, he2⟩
    | succ k ih =>
      rw [Function.iterate_succ_apply']
      have hs := tickZd_step dl _ hd1 hd2 ih.1 ih.2.1 ih.2.2
      exact ⟨hs.1, hs.2.2.1, hs.2.2.2⟩
  have ha := aux n
  have hs := tickZd_step dl _ hd1 hd2 ha.1 ha.2.1 ha.2.2
  rw [Function.iterate_succ_apply']
  exact ⟨hs.2.1, hs.2.2.2, ha.2.2⟩

/-- Witness for C5 (amended): first tick from `ecg = 74` with
`dl = 1/2`. -/
theorem claim_C5_ecg_monotone_witness :
    ((0.1 : ℚ) ≤ 1/2) ∧ ((1/2 : ℚ) ≤ 5/9) ∧ gEcg.state .heartRate = 75 ∧
    (55 : ℚ) ≤ gEcg.state .ecg ∧ gEcg.state .ecg ≤ 75 ∧
    ((Nat.iterate (tickZd (1/2)) 0 gEcg).state .ecg ≤
      (Nat.iterate (tickZd (1/2)) 1 gEcg).state .ecg ∧
    (Nat.iterate (tickZd (1/2)) 1 gEcg).state .ecg ≤ 75 ∧
    (Nat.iterate (tickZd (1/2)) 0 gEcg).state .ecg ≤ 75) := by
  have he1 : (55 : ℚ) ≤ gEcg.state .ecg := by norm_num [gEcg, ecgTestState]
  have he2 : gEcg.state .ecg ≤ 75 := by norm_num [gEcg, ecgTestState]
  exact ⟨by norm_num, by norm_num, rfl, he1, he2,
    claim_C5_ecg_monotone_amended (1/2) gEcg (by norm_num) (by norm_num) rfl he1 he2 0⟩

/-- C6: starting from the documented initial state, with every noise
sample fixed to 0 and `dt = 1`, the first tick produces raw
`heartRate = 74.6` rendered as 75, and raw `ecg = 75.08` (the ecg step
uses mean 74.6) rendered as 75. -/
theorem claim_C6_first_tick :
    (send_fake_data noiseZero sqrtOne 1 0 true gInit).2.2.state .heartRate = 74.6 ∧
    (send_fake_data noiseZero sqrtOne 1 0 true gInit).1.heartRate = 75 ∧
    (send_fake_data noiseZero sqrtOne 1 0 true gInit).2.2.state .ecg = 75.08 ∧
    (send_fake_data noiseZero sqrtOne 1 0 true gInit).1.ecg = 75 := by
  refine ⟨?_, ?_, ?_, ?_⟩ <;>
    · simp [send_fake_data, _ou_step, _clamp, tick_dt, gInit, initState, noiseZero, sqrtOne,
        max_def, min_def]
      try norm_num
      try simp [Function.update_apply, initState]
      try norm_num
      try simp [Function.update_apply, initState]
      try norm_num
      try (unfold pyRound; norm_num)

/-- C7: for every tick, each integer field of the rendered Reading is
the half-to-even rounding of the corresponding post-step state value
and the temperature field is that rounding at one decimal place; the
rounding is a nearest-integer rounding (error at most 1/2, and at most
1/20 for one decimal place); in particular 36.84 renders as 36.8 and
74.6 renders as 75. -/
theorem claim_C7_rendering (noise : ℕ → ℚ) (sqrtFn : ℚ → ℚ) (now : ℚ) (ts : ℤ)
    (pub : Bool) (g : Gen) :
    (send_fake_data noise sqrtFn now ts pub g).1.systolic =
      pyRound ((send_fake_data noise sqrtFn now ts pub g).2.2.state .systolic) ∧
    (send_fake_data noise sqrtFn now ts pub g).1.diastolic =
      pyRound ((send_fake_data noise sqrtFn now ts pub g).2.2.state .diastolic) ∧
    (send_fake_data noise sqrtFn now ts pub g).1.heartRate =
      pyRound ((send_fake_data noise sqrtFn now ts pub g).2.2.state .heartRate) ∧
    (send_fake_data noise sqrtFn now ts pub g).1.respiratoryRate =
      pyRound ((send_fake_data noise sqrtFn now ts pub g).2.2.state .respiratoryRate) ∧
    (send_fake_data noise sqrtFn now ts pub g).1.spo2 =
      pyRound ((send_fake_data noise sqrtFn now ts pub g).2.2.state .spo2) ∧
    (send_fake_data noise sqrtFn now ts pub g).1.ecg =
      pyRound ((send_fake_data noise sqrtFn now ts pub g).2.2.state .ecg) ∧
    (send_fake_data noise sqrtFn now ts pub g).1.temperature =
      pyRound1 ((send_fake_data noise sqrtFn now ts pub g).2.2.state .temperature) ∧
    (∀ x : ℚ, |(pyRound x : ℚ) - x| ≤ 1/2) ∧
    (∀ x : ℚ, |pyRound1 x - x| ≤ 1/20) ∧
    pyRound1 36.84 = 36.8 ∧
    pyRound 74.6 = 75 := by
  refine ⟨?_, ?_, ?_, ?_, ?_, ?_, ?_, pyRound_nearest, pyRound1_nearest, ?_, ?_⟩
  · rw [tick_state_systolic, tick_reading]
  · rw [tick_state_diastolic, tick_reading]
  · rw [tick_state_heartRate, tick_reading]
  · rw [tick_state_respiratoryRate, tick_reading]
  · rw [tick_state_spo2, tick_reading]
  · rw [tick_state_ecg, tick_reading]
  · rw [tick_state_temperature, tick_reading]
  · unfold pyRound1 pyRound
    norm_num
  · unfold pyRound
    norm_num

/-- C8: on every tick, ecg is advanced toward a mean equal to the
heartRate value computed earlier in the same tick, respiratoryRate is
advanced toward `clamp(14.0 + (heartRate − 75.0)*0.05, 12.0, 18.0)`
computed from that same just-advanced heartRate, and heartRate is
advanced before both (it consumes the tick's first noise draw, ecg the
second, respiratoryRate the third). -/
theorem claim_C8_intra_tick_coupling (noise : ℕ → ℚ) (sqrtFn : ℚ → ℚ) (now : ℚ)
    (ts : ℤ) (pub : Bool) (g : Gen) :
    (send_fake_data noise sqrtFn now ts pub g).2.2.state .heartRate =
      (tickHR noise sqrtFn now g).1 ∧
    (send_fake_data noise sqrtFn now ts pub g).2.2.state .ecg =
      (_ou_step (tickHR noise sqrtFn now g).2 .ecg 55 110 (tickHR noise sqrtFn now g).1
        1.8 3.0 (tick_dt now g) sqrtFn noise).1 ∧
    (send_fake_data noise sqrtFn now ts pub g).2.2.state .respiratoryRate =
      (_ou_step (tickEC noise sqrtFn now g).2 .respiratoryRate 12 20
        (_clamp (14.0 + ((tickHR noise sqrtFn now g).1 - 75.0) * 0.05) 12.0 18.0)
        0.35 0.25 (tick_dt now g) sqrtFn noise).1 ∧
    (tickHR noise sqrtFn now g).2.draws = g.draws + 1 ∧
    (tickEC noise sqrtFn now g).2.draws = g.draws + 2 ∧
    (tickRR noise sqrtFn now g).2.draws = g.draws + 3 := by
  refine ⟨tick_state_heartRate noise sqrtFn now ts pub g, ?_, ?_, rfl, rfl, rfl⟩
  · rw [tick_state_ecg]
    rfl
  · rw [tick_state_respiratoryRate]
    rfl

/-- C9: the in-memory generator state after a tick does not depend on
whether the publish step succeeds or fails; the rendered reading is the
same as well, the last-tick timestamp is recorded, and on failure the
tick still completes, reporting the failure instead of raising. -/
theorem claim_C9_publish_failure (noise : ℕ → ℚ) (sqrtFn : ℚ → ℚ) (now : ℚ)
    (ts : ℤ) (g : Gen) (b1 b2 : Bool) :
    (send_fake_data noise sqrtFn now ts b1 g).2.2 =
      (send_fake_data noise sqrtFn now ts b2 g).2.2 ∧
    (send_fake_data noise sqrtFn now ts b1 g).1 =
      (send_fake_data noise sqrtFn now ts b2 g).1 ∧
    (send_fake_data noise sqrtFn now ts false g).2.2.last_update_t = now ∧
    (send_fake_data noise sqrtFn now ts false g).2.1 = false :=
  ⟨rfl, rfl, rfl, rfl⟩

/-- C10: for every heartRate value in [60, 100], the respiratory target
mean `clamp(14.0 + (heartRate − 75.0)*0.05, 12.0, 18.0)` equals the
unclamped expression (the clamp is an identity there). -/
theorem claim_C10_rr_mu_identity (hr : ℚ) (h1 : 60 ≤ hr) (h2 : hr ≤ 100) :
    _clamp (14.0 + (hr - 75.0) * 0.05) 12.0 18.0 = 14.0 + (hr - 75.0) * 0.05 := by
  have e1 : (12.0 : ℚ) ≤ 14.0 + (hr - 75.0) * 0.05 := by
    have e : (0.05 : ℚ) = 1/20 := by norm_num
    rw [e]; linarith
  have e2 : (14.0 : ℚ) + (hr - 75.0) * 0.05 ≤ 18.0 := by
    have e : (0.05 : ℚ) = 1/20 := by norm_num
    rw [e]; linarith
  exact clamp_eq_of_mem _ _ _ e1 e2

/-- Witness for C10: the identity instantiated at heartRate 74. -/
theorem claim_C10_rr_mu_identity_witness :
    _clamp (14.0 + ((74 : ℚ) - 75.0) * 0.05) 12.0 18.0 =
      14.0 + ((74 : ℚ) - 75.0) * 0.05 :=
  claim_C10_rr_mu_identity 74 (by norm_num) (by norm_num)
